import Mathlib

/-!
Verification of the PhotoConversionTool repository (`script.py`, `whatsapp.py`).

The Python sources are shallowly embedded: pure logic (timestamp comparison,
folder-year extraction, filename pattern matching, datetime composition) is
translated into executable Lean functions, and the effectful per-file
processing functions are translated into functions over an explicit
environment of external outcomes (filesystem-call success, subprocess exit
codes, metadata-library results) that return the counter deltas, filesystem
effects, and raised/normal termination of the source functions.
-/

namespace PhotoConversion

/-- Naive local date-time (seconds precision), the shape of the Python
`datetime` values used throughout `script.py` and `whatsapp.py`. -/
structure DateTime where
  year : Nat
  month : Nat
  day : Nat
  hour : Nat
  minute : Nat
  second : Nat
deriving DecidableEq, Repr

/-- Lexicographic comparison on datetimes, matching Python's `datetime`
ordering used by `min(created, modified)` in `script.py`. -/
def DateTime.leb (a b : DateTime) : Bool :=
  if a.year < b.year then true
  else if b.year < a.year then false
  else if a.month < b.month then true
  else if b.month < a.month then false
  else if a.day < b.day then true
  else if b.day < a.day then false
  else if a.hour < b.hour then true
  else if b.hour < a.hour then false
  else if a.minute < b.minute then true
  else if b.minute < a.minute then false
  else Nat.ble a.second b.second

/-- Python `min(created, modified)` on two datetimes (`script.py` line 29). -/
def minDT (a b : DateTime) : DateTime :=
  if DateTime.leb a b then a else b

/-- Path-separator class of the folder-year regex `[\\/](\d{4})(?=[\\/])`. -/
def isSep (c : Char) : Bool := c = '\\' || c = '/'

/-- Value of a string of decimal digits, as Python `int` on a digit string. -/
def digitsToNat (cs : List Char) : Nat :=
  cs.foldl (fun a c => 10 * a + (c.toNat - 48)) 0

/-- Leftmost match of `re.search(r"[\\/](\d{4})(?=[\\/])", path)` in
`script.py` `get_best_file_time`: the first position holding a separator,
four digits, and a following separator; returns the four digit characters. -/
def findFolderYearChars : List Char → Option (List Char)
  | [] => none
  | c :: rest =>
    if isSep c then
      match rest with
      | d1 :: d2 :: d3 :: d4 :: d5 :: _ =>
        if d1.isDigit && d2.isDigit && d3.isDigit && d4.isDigit && isSep d5 then
          some [d1, d2, d3, d4]
        else findFolderYearChars rest
      | _ => findFolderYearChars rest
    else findFolderYearChars rest

/-- The folder-year hint of a path, `int(match.group(1))` in `script.py`. -/
def findFolderYear (path : String) : Option Nat :=
  (findFolderYearChars path.toList).map digitsToNat

/-- `script.py` `get_best_file_time`: the earlier of the created and modified
datetimes, capped to Dec 31 23:59:59 of the folder year when a folder-year
segment exists and the chosen year exceeds it. -/
def get_best_file_time (path : String) (created modified : DateTime) : DateTime :=
  let best := minDT created modified
  match findFolderYear path with
  | some y => if y < best.year then ⟨y, 12, 31, 23, 59, 59⟩ else best
  | none => best

/-! ## Filename pattern matcher (`whatsapp.py`) -/

/-- Consume exactly `n` decimal digits from the front of the input,
the behaviour of a `\d{n}` regex piece. -/
def takeDigits : Nat → List Char → Option (List Char × List Char)
  | 0, cs => some ([], cs)
  | _ + 1, [] => none
  | n + 1, c :: cs =>
    if c.isDigit then
      match takeDigits n cs with
      | some (ds, rest) => some (c :: ds, rest)
      | none => none
    else none

/-- Consume a literal character sequence from the front of the input. -/
def dropLit : List Char → List Char → Option (List Char)
  | [], cs => some cs
  | _ :: _, [] => none
  | a :: p, c :: cs => if a = c then dropLit p cs else none

/-- The named capture groups a pattern of `FILENAME_PATTERNS` can produce:
`date`, `time`, `min`, `sec` (absent groups are `none`). -/
structure MatchGroups where
  date : List Char
  timeG : Option (List Char) := none
  minG : Option (List Char) := none
  secG : Option (List Char) := none
deriving DecidableEq, Repr

/-- Pattern 1, `^(?:IMG|VID)-(?P<date>\d{8})-WA\d+`. -/
def matchP1 (cs : List Char) : Option MatchGroups :=
  let rest? :=
    match dropLit ("IMG-".toList) cs with
    | some r => some r
    | none => dropLit ("VID-".toList) cs
  match rest? with
  | none => none
  | some r =>
    match takeDigits 8 r with
    | none => none
    | some (d, r2) =>
      match dropLit ("-WA".toList) r2 with
      | none => none
      | some r3 =>
        match r3 with
        | c :: _ => if c.isDigit then some { date := d } else none
        | [] => none

/-- Pattern 2, `^PXL_(?P<date>\d{8})_(?P<time>\d{6})`. -/
def matchP2 (cs : List Char) : Option MatchGroups :=
  match dropLit ("PXL_".toList) cs with
  | none => none
  | some r =>
    match takeDigits 8 r with
    | none => none
    | some (d, r2) =>
      match r2 with
      | '_' :: r3 =>
        match takeDigits 6 r3 with
        | none => none
        | some (t, _) => some { date := d, timeG := some t }
      | _ => none

/-- Pattern 3, `^(?P<date>\d{8})[_-](?P<time>\d{6})`. -/
def matchP3 (cs : List Char) : Option MatchGroups :=
  match takeDigits 8 cs with
  | none => none
  | some (d, r) =>
    match r with
    | s :: r2 =>
      if s = '_' || s = '-' then
        match takeDigits 6 r2 with
        | none => none
        | some (t, _) => some { date := d, timeG := some t }
      else none
    | [] => none

/-- Pattern 4,
`^(?P<date>\d{4}[-_]\d{2}[-_]\d{2})[ _T.-](?P<time>\d{2})[.\-_:](?P<min>\d{2})[.\-_:](?P<sec>\d{2})`.
The `date` group captures the separators it matched; the `time` group holds
only the two hour digits. -/
def matchP4 (cs : List Char) : Option MatchGroups :=
  match takeDigits 4 cs with
  | none => none
  | some (y, r1) =>
    match r1 with
    | s1 :: r2 =>
      if s1 = '-' || s1 = '_' then
        match takeDigits 2 r2 with
        | none => none
        | some (mo, r3) =>
          match r3 with
          | s2 :: r4 =>
            if s2 = '-' || s2 = '_' then
              match takeDigits 2 r4 with
              | none => none
              | some (dd, r5) =>
                match r5 with
                | s3 :: r6 =>
                  if s3 ∈ [' ', '_', 'T', '.', '-'] then
                    match takeDigits 2 r6 with
                    | none => none
                    | some (hh, r7) =>
                      match r7 with
                      | s4 :: r8 =>
                        if s4 ∈ ['.', '-', '_', ':'] then
                          match takeDigits 2 r8 with
                          | none => none
                          | some (mi, r9) =>
                            match r9 with
                            | s5 :: r10 =>
                              if s5 ∈ ['.', '-', '_', ':'] then
                                match takeDigits 2 r10 with
                                | none => none
                                | some (ss, _) =>
                                  some { date := y ++ [s1] ++ mo ++ [s2] ++ dd,
                                         timeG := some hh, minG := some mi, secG := some ss }
                              else none
                            | [] => none
                        else none
                      | [] => none
                  else none
                | [] => none
            else none
          | [] => none
      else none
    | [] => none

/-- Pattern 5, `^(?P<date>\d{8})`. -/
def matchP5 (cs : List Char) : Option MatchGroups :=
  match takeDigits 8 cs with
  | none => none
  | some (d, _) => some { date := d }

/-- The literal regex source texts, needed because `whatsapp.py` line 122
tests `pat.pattern.startswith("^(")`. -/
def p1str : String := "^(?:IMG|VID)-(?P<date>\\d\x7b8\x7d)-WA\\d+"

def p2str : String := "^PXL_(?P<date>\\d\x7b8\x7d)_(?P<time>\\d\x7b6\x7d)"

def p3str : String := "^(?P<date>\\d\x7b8\x7d)[_-](?P<time>\\d\x7b6\x7d)"

def p4str : String := "^(?P<date>\\d\x7b4\x7d[-_]\\d\x7b2\x7d[-_]\\d\x7b2\x7d)[ _T.-](?P<time>\\d\x7b2\x7d)[.\\-_:](?P<min>\\d\x7b2\x7d)[.\\-_:](?P<sec>\\d\x7b2\x7d)"

def p5str : String := "^(?P<date>\\d\x7b8\x7d)"

/-- `FILENAME_PATTERNS` of `whatsapp.py`: the ordered pattern list, each with
its regex source text. -/
def FILENAME_PATTERNS : List (String × (List Char → Option MatchGroups)) :=
  [(p1str, matchP1), (p2str, matchP2), (p3str, matchP3), (p4str, matchP4), (p5str, matchP5)]

/-- `str.startswith(pre)` on character lists (Python `str.startswith`). -/
def startsWithLit (p s : List Char) : Bool := (dropLit p s).isSome

/-- `re.split(r"[-_]", s)`. -/
def splitSeps : List Char → List (List Char)
  | [] => [[]]
  | c :: cs =>
    if c = '-' || c = '_' then [] :: splitSeps cs
    else
      match splitSeps cs with
      | g :: gs => (c :: g) :: gs
      | [] => [[c]]

/-- Date normalisation of `parse_datetime_from_filename` lines 105-109:
a dashed/underscored date splitting into exactly three parts is joined to
8 contiguous digits; anything else is left as is. -/
def normalizeDate (d : List Char) : List Char :=
  if '-' ∈ d ∨ '_' ∈ d then
    match splitSeps d with
    | [y, mo, dd] => y ++ mo ++ dd
    | _ => d
  else d

/-- Post-match processing of `parse_datetime_from_filename` lines 100-139 for
one matched pattern: date normalisation, the (dead) time reassembly guarded by
`pat.pattern.startswith("^(") is False`, and the length validations.
`none` models the `continue` on a date that is not 8 digits. -/
def postProcess (pstr : String) (gd : MatchGroups) : Option (List Char × Option (List Char)) :=
  let date1 := normalizeDate gd.date
  let time1 := gd.timeG
  let time2 :=
    if (!(startsWithLit ("^(".toList) pstr.toList)) && gd.minG.isSome && gd.secG.isSome then
      match gd.timeG, gd.minG, gd.secG with
      | some h, some m, some s => some (h ++ m ++ s)
      | _, _, _ => time1
    else time1
  if date1.length ≠ 8 then none
  else
    some (date1,
      match time2 with
      | some t => if t.length ≠ 6 then none else some t
      | none => none)

/-- The pattern loop of `parse_datetime_from_filename`: first pattern whose
match survives post-processing wins. -/
def tryPatterns : List (String × (List Char → Option MatchGroups)) → List Char →
    Option (List Char) × Option (List Char)
  | [], _ => (none, none)
  | (pstr, f) :: rest, stem =>
    match f stem with
    | none => tryPatterns rest stem
    | some gd =>
      match postProcess pstr gd with
      | none => tryPatterns rest stem
      | some (d, t) => (some d, t)

/-- Characters before the last `'.'` of the input, provided that dot is not
the final character; `none` when no such dot exists. -/
def stripAfterLastDot : List Char → Option (List Char)
  | [] => none
  | c :: cs =>
    match stripAfterLastDot cs with
    | some s => some (c :: s)
    | none => if c = '.' ∧ cs ≠ [] then some [] else none

/-- Python `Path(name).stem`: the name without its final suffix; the suffix
dot must lie strictly inside the name (index `0 < i < len - 1`). -/
def stemOf : List Char → List Char
  | [] => []
  | c :: cs =>
    match stripAfterLastDot cs with
    | some s => c :: s
    | none => c :: cs

/-- `whatsapp.py` `parse_datetime_from_filename(name)`: pattern-match the stem
of the filename, returning `(date 'YYYYMMDD' or none, time 'HHMMSS' or none)`. -/
def parse_datetime_from_filename (name : String) :
    Option (List Char) × Option (List Char) :=
  tryPatterns FILENAME_PATTERNS (stemOf name.toList)

/-! ## Datetime composition and resolution (`whatsapp.py`) -/

/-- Gregorian leap year, as Python's `calendar`/`datetime` use. -/
def isLeap (y : Nat) : Bool := (y % 4 = 0 && y % 100 ≠ 0) || y % 400 = 0

/-- Days in a month, for the validity check of the `datetime` constructor. -/
def daysInMonth (y mo : Nat) : Nat :=
  if mo = 2 then (if isLeap y then 29 else 28)
  else if mo = 4 || mo = 6 || mo = 9 || mo = 11 then 30
  else 31

/-- The Python `datetime(...)` constructor: `some` on valid field values,
`none` for the `ValueError` it raises otherwise. -/
def mkDatetime (y mo d hh mi ss : Nat) : Option DateTime :=
  if 1 ≤ y ∧ y ≤ 9999 ∧ 1 ≤ mo ∧ mo ≤ 12 ∧ 1 ≤ d ∧ d ≤ daysInMonth y mo
      ∧ hh ≤ 23 ∧ mi ≤ 59 ∧ ss ≤ 59 then
    some ⟨y, mo, d, hh, mi, ss⟩
  else none

/-- The `--time-default` policy of `whatsapp.py`. -/
inductive TimeDefault
  | zero
  | keepMtime
  | noon
deriving DecidableEq, Repr

/-- `whatsapp.py` `compose_datetime`: build the datetime from the parsed date
digits and optional time digits, defaulting the time-of-day per policy;
`mtimeDT` is `datetime.fromtimestamp(mtime)`. -/
def compose_datetime (date : List Char) (time : Option (List Char))
    (td : TimeDefault) (mtimeDT : DateTime) : Option DateTime :=
  let y := digitsToNat (date.take 4)
  let mo := digitsToNat ((date.drop 4).take 2)
  let d := digitsToNat ((date.drop 6).take 2)
  match time with
  | some t =>
    mkDatetime y mo d (digitsToNat (t.take 2)) (digitsToNat ((t.drop 2).take 2))
      (digitsToNat ((t.drop 4).take 2))
  | none =>
    match td with
    | .keepMtime => mkDatetime y mo d mtimeDT.hour mtimeDT.minute mtimeDT.second
    | .noon => mkDatetime y mo d 12 0 0
    | .zero => mkDatetime y mo d 0 0 0

/-- Result of the datetime-source decision in `whatsapp.py` `process_file`
lines 187-196: the chosen instant, or `err` for the `ValueError` a malformed
calendar date raises out of `compose_datetime` (caught by the outer handler). -/
inductive Resolved
  | ok (dt : DateTime)
  | err
deriving DecidableEq, Repr

/-- `whatsapp.py` `process_file` lines 187-196: filename-derived datetime when
requested and available, otherwise `datetime.fromtimestamp(orig_mtime)`. -/
def whatsappResolve (fromFilename : Bool) (name : String) (td : TimeDefault)
    (mtimeDT : DateTime) : Resolved :=
  if fromFilename then
    match parse_datetime_from_filename name with
    | (some d, t) =>
      match compose_datetime d t td mtimeDT with
      | some dt => .ok dt
      | none => .err
    | (none, _) => .ok mtimeDT
  else .ok mtimeDT

/-! ## Dispatcher and orchestrator (`script.py`) -/

/-- The five run-scoped counters of `script.py`. -/
structure Stats where
  scanned : Nat := 0
  photos_changed : Nat := 0
  videos_changed : Nat := 0
  skipped : Nat := 0
  errors : Nat := 0
deriving DecidableEq, Repr

/-- Pointwise sum of counter deltas. -/
def Stats.add (a b : Stats) : Stats :=
  ⟨a.scanned + b.scanned, a.photos_changed + b.photos_changed,
   a.videos_changed + b.videos_changed, a.skipped + b.skipped, a.errors + b.errors⟩

/-- The outcome counters fed by a terminal per-file state (everything but
`scanned`). -/
def outcomeCounters (s : Stats) : Nat :=
  s.photos_changed + s.videos_changed + s.skipped + s.errors

/-- Filesystem mutations the `script.py` strategies can perform, in the order
performed. -/
inductive Eff
  | insertExif
  | writeSidecar
  | createTemp
  | removeTemp
  | replaceOrig
  | writeOutput
  | removeOrig
deriving DecidableEq, Repr

/-- Minimal filesystem state affected by the video strategy: a version number
of the original file's content and whether its temp file exists. -/
structure FS where
  originalVersion : Nat
  tempExists : Bool
deriving DecidableEq, Repr

/-- Semantics of one filesystem effect on the minimal state. -/
def applyEff (fs : FS) : Eff → FS
  | .createTemp => { fs with tempExists := true }
  | .removeTemp => { fs with tempExists := false }
  | .replaceOrig => ⟨fs.originalVersion + 1, false⟩
  | _ => fs

/-- Run a list of effects over the minimal filesystem state. -/
def runEffs (fs : FS) (effs : List Eff) : FS := effs.foldl applyEff fs

/-- How a `script.py` per-file function terminates: normally, or by raising an
uncaught exception past its own body (killing the batch loop); either way the
counter delta and the effects performed up to that point are recorded. -/
inductive Outcome
  | normal (d : Stats) (effs : List Eff)
  | raised (d : Stats) (effs : List Eff)
deriving DecidableEq, Repr

/-- Whether an outcome is a normal return. -/
def Outcome.isNormal : Outcome → Bool
  | .normal _ _ => true
  | .raised _ _ => false

/-- The counter delta of an outcome. -/
def Outcome.delta : Outcome → Stats
  | .normal d _ => d
  | .raised d _ => d

/-- The effects of an outcome. -/
def Outcome.effects : Outcome → List Eff
  | .normal _ e => e
  | .raised _ e => e

/-- Oracle of the external outcomes one file's processing can encounter in
`script.py`: whether the file already carries an authoritative embedded date,
whether `os.path.getctime`/`getmtime` succeed, whether the ffmpeg probe can be
launched and reports a stream, the remux launch/exit/temp-residue outcomes,
and the photo/sidecar/avi write outcomes. -/
structure FEnv where
  hasExif : Bool
  ctimeOk : Bool
  probeLaunchOk : Bool
  probeHasStream : Bool
  remuxLaunchOk : Bool
  remuxExit0 : Bool
  remuxTempLeft : Bool
  exifInsertOk : Bool
  sidecarOk : Bool
  aviLaunchOk : Bool
  aviExit0 : Bool
  aviDeleteOk : Bool
deriving DecidableEq, Repr

/-- Photo extensions accepted by `process_photo` and routed by `main`. -/
def photoExts : List String := [".jpg", ".jpeg", ".tif", ".tiff"]

/-- Extensions `main` routes to the sidecar branch. -/
def sidecarExts : List String := [".png", ".bmp", ".gif", ".webp"]

/-- Extensions `main` routes to `process_video`. -/
def videoExts : List String := [".mp4", ".mov", ".m4v", ".3gp", ".3g2"]

/-- `script.py` `process_photo`: unsupported extensions are skipped; a file
without an embedded date gets the best file time written (the EXIF write is
the only step inside a `try`); a file with an embedded date is skipped. -/
def process_photo (dryRun : Bool) (env : FEnv) (ext : String) : Outcome :=
  if ext ∉ photoExts then .normal { skipped := 1 } []
  else if env.hasExif = false then
    if env.ctimeOk = false then .raised {} []
    else if dryRun then .normal { photos_changed := 1 } []
    else if env.exifInsertOk then .normal { photos_changed := 1 } [.insertExif]
    else .normal { errors := 1 } []
  else .normal { skipped := 1 } []

/-- `script.py` `process_video`: best file time, then probe (both outside any
`try`), then dry-run short-circuit, then the remux attempt inside a `try`
with temp-file replace on exit 0 and temp cleanup plus error count otherwise. -/
def process_video (dryRun : Bool) (env : FEnv) : Outcome :=
  if env.ctimeOk = false then .raised {} []
  else if env.probeLaunchOk = false then .raised {} []
  else if env.probeHasStream = false then .normal { skipped := 1 } []
  else if dryRun then .normal { videos_changed := 1 } []
  else if env.remuxLaunchOk = false then
    .normal { errors := 1 } (if env.remuxTempLeft then [.createTemp, .removeTemp] else [])
  else if env.remuxExit0 then .normal { videos_changed := 1 } [.createTemp, .replaceOrig]
  else .normal { errors := 1 } (if env.remuxTempLeft then [.createTemp, .removeTemp] else [])

/-- `script.py` `process_avi`: best file time (outside any `try`), dry-run
short-circuit, then the transcode; no branch touches any counter, and on
success with `delete_originals` the original is removed best-effort. -/
def process_avi (dryRun deleteOriginals : Bool) (env : FEnv) : Outcome :=
  if env.ctimeOk = false then .raised {} []
  else if dryRun then .normal {} []
  else if env.aviLaunchOk = false then .normal {} []
  else if env.aviExit0 = false then .normal {} []
  else .normal {} ([Eff.writeOutput] ++
    (if deleteOriginals then (if env.aviDeleteOk then [Eff.removeOrig] else []) else []))

/-- `main`'s sidecar branch: `get_best_file_time` (can raise) then
`create_xmp_sidecar`, whose write is inside a `try`. -/
def sidecar_branch (dryRun : Bool) (env : FEnv) : Outcome :=
  if env.ctimeOk = false then .raised {} []
  else if dryRun then .normal { photos_changed := 1 } []
  else if env.sidecarOk then .normal { photos_changed := 1 } [.writeSidecar]
  else .normal { errors := 1 } []

/-- The extension dispatch of `script.py` `main` (lines 209-220). -/
def dispatchFile (dryRun delOrig : Bool) (env : FEnv) (ext : String) : Outcome :=
  if ext ∈ photoExts then process_photo dryRun env ext
  else if ext ∈ sidecarExts then sidecar_branch dryRun env
  else if ext = ".avi" then process_avi dryRun delOrig env
  else if ext ∈ videoExts then process_video dryRun env
  else .normal { skipped := 1 } []

/-- One iteration of `main`'s file loop: `scanned` is incremented before the
dispatch, so the increment survives even a raising dispatch. -/
def processOne (dryRun delOrig : Bool) (env : FEnv) (ext : String) : Outcome :=
  match dispatchFile dryRun delOrig env ext with
  | .normal d e => .normal (Stats.add { scanned := 1 } d) e
  | .raised d e => .raised (Stats.add { scanned := 1 } d) e

/-- The batch loop of `script.py` `main` over the discovered files: the
accumulated counters and whether an uncaught per-file exception aborted the
run before the remaining files were processed. -/
def runBatch (dryRun delOrig : Bool) : List (String × FEnv) → Stats × Bool
  | [] => ({}, false)
  | (ext, env) :: rest =>
    match processOne dryRun delOrig env ext with
    | .normal d _ =>
      let r := runBatch dryRun delOrig rest
      (Stats.add d r.1, r.2)
    | .raised d _ => (d, true)

/-! ## `whatsapp.py` per-file processing -/

/-- Observable state of one JPEG for `whatsapp.py` `process_file`: its OS
access and modified timestamps, the datetime view of the modified timestamp
(`datetime.fromtimestamp`), and whether EXIF `DateTimeOriginal` is present. -/
structure WFileState where
  atime : Nat
  mtime : Nat
  mtimeDT : DateTime
  hasDTO : Bool
deriving DecidableEq, Repr

/-- Oracle of the external outcomes `process_file` can encounter: whether
`path.stat()` succeeds (it runs before the `try`), whether `piexif.load`
succeeds, whether the `piexif.dump`/`insert` write succeeds, and the OS
timestamps the write would leave behind before `os.utime` restores them. -/
structure WEnv where
  statOk : Bool
  loadOk : Bool
  insertOk : Bool
  writeAtime : Nat
  writeMtime : Nat
deriving DecidableEq, Repr

/-- The kind of message `process_file` returns. -/
inductive WKind
  | showMeta
  | skip
  | dryRun
  | updated
  | error
deriving DecidableEq, Repr

/-- `whatsapp.py` `process_file`: `none` models the uncaught exception of a
failing `path.stat()` (the only step outside the `try`); otherwise the
returned message kind and the file state after processing. -/
def wprocess_file (name : String) (dryRun showMeta fromFilename : Bool)
    (td : TimeDefault) (force : Bool) (env : WEnv) (fs : WFileState) :
    Option (WKind × WFileState) :=
  if env.statOk = false then none
  else
    let alreadyHas := env.loadOk && fs.hasDTO
    if showMeta then some (.showMeta, fs)
    else if alreadyHas && !force then some (.skip, fs)
    else
      match whatsappResolve fromFilename name td fs.mtimeDT with
      | .err => some (.error, fs)
      | .ok _ =>
        if dryRun then some (.dryRun, fs)
        else if env.insertOk = false then some (.error, fs)
        else
          let fs1 : WFileState :=
            { fs with hasDTO := true, atime := env.writeAtime, mtime := env.writeMtime }
          let fs2 : WFileState := { fs1 with atime := fs.atime, mtime := fs.mtime }
          some (.updated, fs2)

/-! ## Shared helper lemmas -/

/-- An all-success environment for concrete instantiations. -/
def envAll : FEnv :=
  ⟨true, true, true, true, true, true, true, true, true, true, true, true⟩

/-- A normally-terminating `process_photo` call increments exactly one outcome
counter. -/
lemma photo_counts (dryRun : Bool) (env : FEnv) (ext : String) (d : Stats)
    (effs : List Eff) (h : process_photo dryRun env ext = .normal d effs) :
    outcomeCounters d = 1 := by
  unfold process_photo at h
  split at h
  · cases h; rfl
  · split at h
    · split at h
      · cases h
      · split at h
        · cases h; rfl
        · split at h
          · cases h; rfl
          · cases h; rfl
    · cases h; rfl

/-- A normally-terminating sidecar branch increments exactly one outcome
counter. -/
lemma sidecar_counts (dryRun : Bool) (env : FEnv) (d : Stats)
    (effs : List Eff) (h : sidecar_branch dryRun env = .normal d effs) :
    outcomeCounters d = 1 := by
  unfold sidecar_branch at h
  split at h
  · cases h
  · split at h
    · cases h; rfl
    · split at h
      · cases h; rfl
      · cases h; rfl

/-- A normally-terminating `process_video` call increments exactly one outcome
counter. -/
lemma video_counts (dryRun : Bool) (env : FEnv) (d : Stats)
    (effs : List Eff) (h : process_video dryRun env = .normal d effs) :
    outcomeCounters d = 1 := by
  unfold process_video at h
  split at h
  · cases h
  · split at h
    · cases h
    · split at h
      · cases h; rfl
      · split at h
        · cases h; rfl
        · split at h
          · cases h; rfl
          · split at h
            · cases h; rfl
            · cases h; rfl

/-- A normally-terminating `process_avi` call increments no outcome counter. -/
lemma avi_counts (dryRun delOrig : Bool) (env : FEnv) (d : Stats)
    (effs : List Eff) (h : process_avi dryRun delOrig env = .normal d effs) :
    outcomeCounters d = 0 := by
  unfold process_avi at h
  split at h
  · cases h
  · split at h
    · cases h; rfl
    · split at h
      · cases h; rfl
      · split at h
        · cases h; rfl
        · cases h; rfl

/-- Photo extensions are not `.avi`. -/
lemma ne_avi_of_mem_photo (ext : String) (hp : ext ∈ photoExts) : ¬ ext = ".avi" := by
  simp only [photoExts, List.mem_cons, List.mem_singleton, List.not_mem_nil, or_false] at hp
  rcases hp with rfl | rfl | rfl | rfl <;> decide

/-- Sidecar extensions are not `.avi`. -/
lemma ne_avi_of_mem_sidecar (ext : String) (hs : ext ∈ sidecarExts) : ¬ ext = ".avi" := by
  simp only [sidecarExts, List.mem_cons, List.mem_singleton, List.not_mem_nil, or_false] at hs
  rcases hs with rfl | rfl | rfl | rfl <;> decide

/-- The outcome-counter total of a normally-terminating dispatch. -/
lemma dispatch_counts (dryRun delOrig : Bool) (env : FEnv) (ext : String)
    (d : Stats) (effs : List Eff)
    (h : dispatchFile dryRun delOrig env ext = .normal d effs) :
    outcomeCounters d = if ext = ".avi" then 0 else 1 := by
  unfold dispatchFile at h
  by_cases hp : ext ∈ photoExts
  · rw [if_pos hp] at h
    rw [if_neg (ne_avi_of_mem_photo ext hp)]
    exact photo_counts dryRun env ext d effs h
  · rw [if_neg hp] at h
    by_cases hs : ext ∈ sidecarExts
    · rw [if_pos hs] at h
      rw [if_neg (ne_avi_of_mem_sidecar ext hs)]
      exact sidecar_counts dryRun env d effs h
    · rw [if_neg hs] at h
      by_cases ha : ext = ".avi"
      · rw [if_pos ha] at h
        rw [if_pos ha]
        exact avi_counts dryRun delOrig env d effs h
      · rw [if_neg ha] at h
        rw [if_neg ha]
        by_cases hv : ext ∈ videoExts
        · rw [if_pos hv] at h
          exact video_counts dryRun env d effs h
        · rw [if_neg hv] at h
          cases h; rfl

/-! ## Claim theorems -/

/-- Claim C1, counterexample: a modern-video file that already carries an
authoritative embedded creation date (`hasExif := true`), processed in Apply
mode with everything else healthy, is remuxed and replaced — `process_video`
contains no pre-existing-date check, so the result is not `Skipped`. -/
theorem C1_counterexample :
    process_video false { envAll with hasExif := true } =
      .normal { videos_changed := 1 } [.createTemp, .replaceOrig] ∧
    (process_video false { envAll with hasExif := true }).delta.skipped = 0 ∧
    Eff.replaceOrig ∈ (process_video false { envAll with hasExif := true }).effects := by
  refine ⟨rfl, rfl, ?_⟩
  decide

/-- Claim C1, amended: the Photo strategy does skip a file whose embedded
`DateTimeOriginal` is present, but the ModernVideo strategy performs no
pre-existing-date check at all — its behaviour is independent of whether the
file already carries an embedded date. -/
theorem C1_amended (env : FEnv) (dryRun b : Bool) (ext : String)
    (hexif : env.hasExif = true) (hext : ext ∈ photoExts) :
    process_photo dryRun env ext = .normal { skipped := 1 } [] ∧
    process_video dryRun { env with hasExif := b } = process_video dryRun env := by
  constructor
  · simp [process_photo, hext, hexif]
  · rfl

/-- Claim C1, witness for the amended theorem at a concrete photo file with an
embedded date. -/
theorem C1_witness :
    process_photo false envAll ".jpg" = .normal { skipped := 1 } [] ∧
    process_video false { envAll with hasExif := false } = process_video false envAll :=
  C1_amended envAll false false ".jpg" rfl (by decide)

/-- Claim C2: the export-tool pattern's regex source starts with `"^("`, so
the time-reassembly branch of `parse_datetime_from_filename` (guarded by
`pat.pattern.startswith("^(") is False`) never runs for it, and the
export-tool filename `2023-01-15 14.30.00.jpg` parses to the normalized date
with NO time: the captured hour `14` is discarded as a malformed time. -/
theorem C2_dead_time_branch :
    startsWithLit ("^(".toList) p4str.toList = true ∧
    parse_datetime_from_filename "2023-01-15 14.30.00.jpg" =
      (some "20230115".toList, none) := by
  constructor
  · decide
  · rfl

/-- Claim C4, counterexample: a successfully transcoded `.avi` file in Apply
mode terminates normally but increments none of the four outcome counters. -/
theorem C4_counterexample :
    processOne false false envAll ".avi" = .normal { scanned := 1 } [Eff.writeOutput] ∧
    outcomeCounters (processOne false false envAll ".avi").delta = 0 := by
  exact ⟨rfl, rfl⟩

/-- Claim C4, amended: every file whose processing terminates normally
increments exactly one outcome counter — except `.avi` files, whose
processing increments none. -/
theorem C4_amended (env : FEnv) (ext : String) (dryRun delOrig : Bool)
    (d : Stats) (effs : List Eff)
    (h : processOne dryRun delOrig env ext = .normal d effs) :
    outcomeCounters d = if ext = ".avi" then 0 else 1 := by
  unfold processOne at h
  cases hq : dispatchFile dryRun delOrig env ext with
  | raised d' e' => rw [hq] at h; cases h
  | normal d' e' =>
    rw [hq] at h
    injection h with h1 h2
    subst h1
    have hc := dispatch_counts dryRun delOrig env ext d' e' hq
    simpa [outcomeCounters, Stats.add] using hc

/-- Claim C4, witness for the amended theorem: a photo with an embedded date
terminates normally and increments exactly one outcome counter. -/
theorem C4_witness : outcomeCounters { scanned := 1, skipped := 1 } =
    if ".jpg" = ".avi" then 0 else 1 :=
  C4_amended envAll ".jpg" false false { scanned := 1, skipped := 1 } [] rfl

/-- Claim C6, counterexample: for `photo.jpg` (no filename-derived date) the
`whatsapp.py` resolver's chosen instant is the filesystem-modified time alone,
which differs from the earlier of created (2020-01-01) and modified
(2022-03-01). -/
theorem C6_counterexample :
    whatsappResolve true "photo.jpg" .zero ⟨2022, 3, 1, 0, 0, 0⟩ =
      .ok ⟨2022, 3, 1, 0, 0, 0⟩ ∧
    (parse_datetime_from_filename "photo.jpg").1 = none ∧
    minDT ⟨2020, 1, 1, 0, 0, 0⟩ ⟨2022, 3, 1, 0, 0, 0⟩ = ⟨2020, 1, 1, 0, 0, 0⟩ ∧
    (⟨2020, 1, 1, 0, 0, 0⟩ : DateTime) ≠ ⟨2022, 3, 1, 0, 0, 0⟩ := by
  refine ⟨rfl, rfl, rfl, ?_⟩
  decide

/-- Claim C6, amended: `script.py`'s resolver does choose the earlier of the
created and modified datetimes (shown on a hint-free path, i.e. before any
cap), but `whatsapp.py`'s fallback, taken whenever no filename-derived date is
used, is the filesystem-modified time alone — the created time is never
consulted. -/
theorem C6_amended (path : String) (created modified : DateTime) (name : String)
    (ff : Bool) (td : TimeDefault)
    (hpath : findFolderYear path = none)
    (hname : ff = false ∨ (parse_datetime_from_filename name).1 = none) :
    get_best_file_time path created modified = minDT created modified ∧
    whatsappResolve ff name td modified = .ok modified := by
  constructor
  · simp [get_best_file_time, hpath]
  · rcases hname with h | h
    · subst h; rfl
    · cases ff
      · rfl
      · rcases hq : parse_datetime_from_filename name with ⟨dd, tt⟩
        rw [hq] at h
        simp only at h
        subst h
        simp [whatsappResolve, hq]

/-- Claim C6, witness for the amended theorem at concrete inputs. -/
theorem C6_witness :
    get_best_file_time "C:\\siirto\\a.jpg" ⟨2020, 1, 1, 0, 0, 0⟩ ⟨2022, 3, 1, 0, 0, 0⟩ =
      minDT ⟨2020, 1, 1, 0, 0, 0⟩ ⟨2022, 3, 1, 0, 0, 0⟩ ∧
    whatsappResolve true "photo.jpg" .zero ⟨2022, 3, 1, 0, 0, 0⟩ =
      .ok ⟨2022, 3, 1, 0, 0, 0⟩ :=
  C6_amended "C:\\siirto\\a.jpg" ⟨2020, 1, 1, 0, 0, 0⟩ ⟨2022, 3, 1, 0, 0, 0⟩ "photo.jpg"
    true .zero (by decide) (Or.inr (by decide))

/-- With filesystem-time reads succeeding, `process_photo` never raises. -/
lemma photo_no_raise (dryRun : Bool) (env : FEnv) (ext : String)
    (h1 : env.ctimeOk = true) :
    (process_photo dryRun env ext).isNormal = true := by
  unfold process_photo
  repeat' split
  all_goals simp_all [Outcome.isNormal]

/-- With filesystem-time reads succeeding, the sidecar branch never raises. -/
lemma sidecar_no_raise (dryRun : Bool) (env : FEnv)
    (h1 : env.ctimeOk = true) :
    (sidecar_branch dryRun env).isNormal = true := by
  unfold sidecar_branch
  repeat' split
  all_goals simp_all [Outcome.isNormal]

/-- With filesystem-time reads succeeding, `process_avi` never raises. -/
lemma avi_no_raise (dryRun delOrig : Bool) (env : FEnv)
    (h1 : env.ctimeOk = true) :
    (process_avi dryRun delOrig env).isNormal = true := by
  unfold process_avi
  repeat' split
  all_goals simp_all [Outcome.isNormal]

/-- With filesystem-time reads and the probe launch succeeding,
`process_video` never raises. -/
lemma video_no_raise (dryRun : Bool) (env : FEnv)
    (h1 : env.ctimeOk = true) (h2 : env.probeLaunchOk = true) :
    (process_video dryRun env).isNormal = true := by
  unfold process_video
  repeat' split
  all_goals simp_all [Outcome.isNormal]

/-- With filesystem-time reads and the probe launch succeeding, every dispatch
terminates normally. -/
lemma dispatch_no_raise (dryRun delOrig : Bool) (env : FEnv) (ext : String)
    (h1 : env.ctimeOk = true) (h2 : env.probeLaunchOk = true) :
    (dispatchFile dryRun delOrig env ext).isNormal = true := by
  unfold dispatchFile
  split
  · exact photo_no_raise dryRun env ext h1
  · split
    · exact sidecar_no_raise dryRun env h1
    · split
      · exact avi_no_raise dryRun delOrig env h1
      · split
        · exact video_no_raise dryRun env h1 h2
        · rfl

/-- Claim C3, counterexample: a filesystem error while resolving the best file
time of the first (video) file raises out of `process_video` and aborts the
batch — the second file is never processed (`scanned` stays 1). -/
theorem C3_counterexample :
    runBatch false false [(".mp4", { envAll with ctimeOk := false }), (".jpg", envAll)] =
      ({ scanned := 1 }, true) := by
  decide

/-- Claim C3, amended: failures inside the guarded write steps are caught and
converted to per-file results, so a dispatch whose filesystem-time reads and
probe launch succeed always terminates normally; likewise `whatsapp.py`'s
`process_file` never raises once its initial `stat` succeeds. Failures in
best-file-time resolution or in launching the probe, by contrast, raise out of
the per-file functions (see the counterexample). -/
theorem C3_amended (env : FEnv) (ext : String) (dryRun delOrig : Bool)
    (wname : String) (wd ws wf wforce : Bool) (td : TimeDefault)
    (wenv : WEnv) (wfs : WFileState)
    (h1 : env.ctimeOk = true) (h2 : env.probeLaunchOk = true)
    (h3 : wenv.statOk = true) :
    (processOne dryRun delOrig env ext).isNormal = true ∧
    (wprocess_file wname wd ws wf td wforce wenv wfs).isSome = true := by
  constructor
  · have hd := dispatch_no_raise dryRun delOrig env ext h1 h2
    unfold processOne
    rcases hq : dispatchFile dryRun delOrig env ext with ⟨d0, e0⟩ | ⟨d0, e0⟩
    · rfl
    · rw [hq] at hd; simp [Outcome.isNormal] at hd
  · unfold wprocess_file
    rw [if_neg (by simp [h3])]
    dsimp only
    repeat' split
    all_goals rfl

/-- Claim C3, witness for the amended theorem at concrete healthy inputs. -/
theorem C3_witness :
    (processOne false false envAll ".mp4").isNormal = true ∧
    (wprocess_file "a.jpg" false false false .zero false ⟨true, true, true, 5, 6⟩
      ⟨1, 2, ⟨2022, 1, 1, 0, 0, 0⟩, false⟩).isSome = true :=
  C3_amended envAll ".mp4" false false "a.jpg" false false false false .zero
    ⟨true, true, true, 5, 6⟩ ⟨1, 2, ⟨2022, 1, 1, 0, 0, 0⟩, false⟩ rfl rfl rfl

/-- A `processOne` call performs exactly the effects of its dispatch. -/
lemma processOne_effects (dryRun delOrig : Bool) (env : FEnv) (ext : String) :
    (processOne dryRun delOrig env ext).effects =
      (dispatchFile dryRun delOrig env ext).effects := by
  unfold processOne
  cases dispatchFile dryRun delOrig env ext <;> rfl

/-- A `processOne` call adds the scanned increment to its dispatch's delta. -/
lemma processOne_delta (dryRun delOrig : Bool) (env : FEnv) (ext : String) :
    (processOne dryRun delOrig env ext).delta =
      Stats.add { scanned := 1 } (dispatchFile dryRun delOrig env ext).delta := by
  unfold processOne
  cases dispatchFile dryRun delOrig env ext <;> rfl

/-- Dry-run `process_photo` performs no filesystem effect. -/
lemma photo_dry_effects (env : FEnv) (ext : String) :
    (process_photo true env ext).effects = [] := by
  unfold process_photo
  repeat' split
  all_goals simp_all [Outcome.effects]

/-- The dry-run sidecar branch performs no filesystem effect. -/
lemma sidecar_dry_effects (env : FEnv) :
    (sidecar_branch true env).effects = [] := by
  unfold sidecar_branch
  repeat' split
  all_goals simp_all [Outcome.effects]

/-- Dry-run `process_avi` performs no filesystem effect. -/
lemma avi_dry_effects (delOrig : Bool) (env : FEnv) :
    (process_avi true delOrig env).effects = [] := by
  unfold process_avi
  repeat' split
  all_goals simp_all [Outcome.effects]

/-- Dry-run `process_video` performs no filesystem effect. -/
lemma video_dry_effects (env : FEnv) :
    (process_video true env).effects = [] := by
  unfold process_video
  repeat' split
  all_goals simp_all [Outcome.effects]

/-- Dry-run dispatch performs no filesystem effect. -/
lemma dispatch_dry_effects (delOrig : Bool) (env : FEnv) (ext : String) :
    (dispatchFile true delOrig env ext).effects = [] := by
  unfold dispatchFile
  split
  · exact photo_dry_effects env ext
  · split
    · exact sidecar_dry_effects env
    · split
      · exact avi_dry_effects delOrig env
      · split
        · exact video_dry_effects env
        · rfl

/-- When the apply-mode writes would succeed, dry-run dispatch produces the
same counter delta as apply-mode dispatch. -/
lemma dispatch_dry_delta (delOrig : Bool) (env : FEnv) (ext : String)
    (h3 : env.exifInsertOk = true) (h4 : env.sidecarOk = true)
    (h5 : env.remuxLaunchOk = true) (h6 : env.remuxExit0 = true) :
    (dispatchFile true delOrig env ext).delta =
      (dispatchFile false delOrig env ext).delta := by
  by_cases hp : ext ∈ photoExts
  · simp only [dispatchFile, if_pos hp]
    unfold process_photo
    by_cases he : env.hasExif = false
    · by_cases hc : env.ctimeOk = false
      · simp [he, hc, hp, Outcome.delta]
      · simp [he, hc, hp, h3, Outcome.delta]
    · simp [he, hp, Outcome.delta]
  · by_cases hs : ext ∈ sidecarExts
    · simp only [dispatchFile, if_neg hp, if_pos hs]
      unfold sidecar_branch
      by_cases hc : env.ctimeOk = false
      · simp [hc, Outcome.delta]
      · simp [hc, h4, Outcome.delta]
    · by_cases ha : ext = ".avi"
      · simp only [dispatchFile, if_neg hp, if_neg hs, if_pos ha]
        unfold process_avi
        by_cases hc : env.ctimeOk = false
        · simp [hc, Outcome.delta]
        · by_cases hl : env.aviLaunchOk = false
          · simp [hc, hl, Outcome.delta]
          · by_cases he0 : env.aviExit0 = false
            · simp [hc, hl, he0, Outcome.delta]
            · simp [hc, hl, he0, Outcome.delta]
      · by_cases hv : ext ∈ videoExts
        · simp only [dispatchFile, if_neg hp, if_neg hs, if_neg ha, if_pos hv]
          unfold process_video
          by_cases hc : env.ctimeOk = false
          · simp [hc, Outcome.delta]
          · by_cases hpl : env.probeLaunchOk = false
            · simp [hc, hpl, Outcome.delta]
            · by_cases hps : env.probeHasStream = false
              · simp [hc, hpl, hps, Outcome.delta]
              · simp [hc, hpl, hps, h5, h6, Outcome.delta]
        · simp [dispatchFile, hp, hs, ha, hv]

/-- Claim C7, counterexample: for a photo without an embedded date whose
apply-mode EXIF write would fail, Simulate performs no mutation but counts a
photo change, while Apply counts an error — the counter deltas of the two
modes differ for the same input, so Simulate does not count exactly as Apply
would have. -/
theorem C7_counterexample :
    (processOne true false { envAll with hasExif := false, exifInsertOk := false }
      ".jpg").effects = [] ∧
    (processOne true false { envAll with hasExif := false, exifInsertOk := false }
      ".jpg").delta = { scanned := 1, photos_changed := 1 } ∧
    (processOne false false { envAll with hasExif := false, exifInsertOk := false }
      ".jpg").delta = { scanned := 1, errors := 1 } ∧
    (processOne true false { envAll with hasExif := false, exifInsertOk := false }
      ".jpg").delta ≠
      (processOne false false { envAll with hasExif := false, exifInsertOk := false }
        ".jpg").delta := by
  refine ⟨rfl, rfl, rfl, ?_⟩
  decide

/-- Claim C7, amended: a dry-run iteration performs no filesystem effect
unconditionally; its counter delta equals the apply-mode delta whenever the
apply-mode external writes would succeed (when such a write would fail, Apply
counts an error where Simulate counts a change — see the counterexample); and
`whatsapp.py`'s `process_file` in dry-run mode returns the file state
unchanged. -/
theorem C7_simulate (env : FEnv) (delOrig : Bool) (ext : String)
    (wname : String) (sm ff wforce : Bool) (td : TimeDefault)
    (wenv : WEnv) (wfs : WFileState)
    (h3 : env.exifInsertOk = true) (h4 : env.sidecarOk = true)
    (h5 : env.remuxLaunchOk = true) (h6 : env.remuxExit0 = true)
    (h7 : wenv.statOk = true) :
    (processOne true delOrig env ext).effects = [] ∧
    (processOne true delOrig env ext).delta = (processOne false delOrig env ext).delta ∧
    (wprocess_file wname true sm ff td wforce wenv wfs).map Prod.snd = some wfs := by
  refine ⟨?_, ?_, ?_⟩
  · rw [processOne_effects]
    exact dispatch_dry_effects delOrig env ext
  · rw [processOne_delta, processOne_delta,
      dispatch_dry_delta delOrig env ext h3 h4 h5 h6]
  · unfold wprocess_file
    rw [if_neg (by simp [h7])]
    dsimp only
    repeat' split
    all_goals simp_all

/-- Claim C7, witness at a concrete photo file without an embedded date. -/
theorem C7_witness :
    (processOne true false { envAll with hasExif := false } ".jpg").effects = [] ∧
    (processOne true false { envAll with hasExif := false } ".jpg").delta =
      (processOne false false { envAll with hasExif := false } ".jpg").delta ∧
    (wprocess_file "a.jpg" true false false .zero false ⟨true, true, true, 5, 6⟩
      ⟨1, 2, ⟨2022, 1, 1, 0, 0, 0⟩, false⟩).map Prod.snd =
      some ⟨1, 2, ⟨2022, 1, 1, 0, 0, 0⟩, false⟩ :=
  C7_simulate { envAll with hasExif := false } false ".jpg" "a.jpg" false false false
    .zero ⟨true, true, true, 5, 6⟩ ⟨1, 2, ⟨2022, 1, 1, 0, 0, 0⟩, false⟩ rfl rfl rfl rfl rfl

/-- Claim C8: in an apply-mode remux attempt (probe launched and found a
stream), the original file is replaced exactly when the remux subprocess
launched and exited 0; otherwise the call still terminates normally with the
error counter incremented, and running its effects on a temp-free filesystem
state leaves that state unchanged — the original's content is untouched and
no temp file remains. -/
theorem C8_remux_atomicity (env : FEnv) (v : Nat)
    (h1 : env.ctimeOk = true) (h2 : env.probeLaunchOk = true)
    (h3 : env.probeHasStream = true) :
    (Eff.replaceOrig ∈ (process_video false env).effects ↔
      env.remuxLaunchOk = true ∧ env.remuxExit0 = true) ∧
    (¬(env.remuxLaunchOk = true ∧ env.remuxExit0 = true) →
      (process_video false env).isNormal = true ∧
      (process_video false env).delta = { errors := 1 } ∧
      runEffs ⟨v, false⟩ (process_video false env).effects = ⟨v, false⟩) := by
  cases hrl : env.remuxLaunchOk <;> cases hre : env.remuxExit0 <;>
    cases hrt : env.remuxTempLeft <;>
      simp [process_video, h1, h2, h3, hrl, hre, hrt, runEffs, applyEff,
        Outcome.effects, Outcome.delta, Outcome.isNormal]

/-- Claim C8, witness: a remux exiting non-zero with a temp file left behind
yields no replacement, one error, and a cleaned-up filesystem state. -/
theorem C8_witness :
    Eff.replaceOrig ∉ (process_video false { envAll with remuxExit0 := false }).effects ∧
    (process_video false { envAll with remuxExit0 := false }).delta = { errors := 1 } ∧
    runEffs ⟨0, false⟩ (process_video false { envAll with remuxExit0 := false }).effects =
      ⟨0, false⟩ := by
  have h := C8_remux_atomicity { envAll with remuxExit0 := false } 0 rfl rfl rfl
  refine ⟨fun hm => absurd (h.1.mp hm) (by decide), (h.2 (by decide)).2.1,
    (h.2 (by decide)).2.2⟩

/-- Claim C10: on the embedded-tag write path of `whatsapp.py` (stat
succeeded, not show-meta, not skipped, resolution succeeded, EXIF insert
succeeded, not dry-run), the returned file state carries the original access
and modified timestamps — `os.utime` restores them after the write — with the
EXIF date now present. -/
theorem C10_restores_file_times (name : String) (ff wforce : Bool)
    (td : TimeDefault) (env : WEnv) (fs : WFileState)
    (h1 : env.statOk = true)
    (h2 : (env.loadOk && fs.hasDTO && !wforce) = false)
    (h3 : whatsappResolve ff name td fs.mtimeDT ≠ .err)
    (h4 : env.insertOk = true) :
    wprocess_file name false false ff td wforce env fs =
      some (.updated, ⟨fs.atime, fs.mtime, fs.mtimeDT, true⟩) := by
  unfold wprocess_file
  rcases hr : whatsappResolve ff name td fs.mtimeDT with dt | _
  · simp [h1, h2, h4, hr]
  · exact absurd hr h3

/-- Claim C10, witness: a concrete JPEG write path returns the original
timestamps 10 and 20 unchanged. -/
theorem C10_witness :
    wprocess_file "IMG-20210704-WA0001.jpg" false false true .zero false
      ⟨true, true, true, 55, 66⟩ ⟨10, 20, ⟨2022, 3, 1, 10, 0, 0⟩, false⟩ =
      some (.updated, ⟨10, 20, ⟨2022, 3, 1, 10, 0, 0⟩, true⟩) :=
  C10_restores_file_times "IMG-20210704-WA0001.jpg" true false .zero
    ⟨true, true, true, 55, 66⟩ ⟨10, 20, ⟨2022, 3, 1, 10, 0, 0⟩, false⟩
    rfl (by decide) (by decide) rfl

/-- `takeDigits` consumes exactly an all-digit prefix of the stated length. -/
lemma takeDigits_append (l r : List Char) (h : ∀ c ∈ l, c.isDigit = true) :
    takeDigits l.length (l ++ r) = some (l, r) := by
  induction l with
  | nil => rfl
  | cons c cs ih =>
    have hc : c.isDigit = true := h c (List.mem_cons_self c cs)
    have ih' := ih fun x hx => h x (List.mem_cons_of_mem c hx)
    simp [takeDigits, hc, ih']

/-- A dot-free string has no last-dot split. -/
lemma stripAfterLastDot_of_no_dot (t : List Char) (h : ∀ c ∈ t, ¬ c = '.') :
    stripAfterLastDot t = none := by
  induction t with
  | nil => rfl
  | cons c cs ih =>
    have hc := h c (List.mem_cons_self c cs)
    have ih' := ih fun x hx => h x (List.mem_cons_of_mem c hx)
    simp [stripAfterLastDot, ih', hc]

/-- Splitting at the last dot, when everything after that dot is dot-free and
nonempty, returns everything before it. -/
lemma stripAfterLastDot_append_no_dot (s t : List Char)
    (ht : ∀ c ∈ t, ¬ c = '.') (htne : t ≠ []) :
    stripAfterLastDot (s ++ '.' :: t) = some s := by
  induction s with
  | nil => simp [stripAfterLastDot, stripAfterLastDot_of_no_dot t ht, htne]
  | cons c cs ih => simp [stripAfterLastDot, ih]

/-- The stem of a nonempty name followed by a dot-free nonempty extension is
the name itself. -/
lemma stemOf_append_ext (c : Char) (cs t : List Char)
    (ht : ∀ x ∈ t, ¬ x = '.') (htne : t ≠ []) :
    stemOf ((c :: cs) ++ '.' :: t) = c :: cs := by
  simp [stemOf, stripAfterLastDot_append_no_dot cs t ht htne]

/-- The messaging-app pattern matches a stem `IMG-<8 digits>-WA<digit>...` and
captures exactly the eight date digits. -/
lemma matchP1_of_shape (d8 : List Char) (w : Char) (ws : List Char)
    (hlen : d8.length = 8) (hd : ∀ c ∈ d8, c.isDigit = true)
    (hw : w.isDigit = true) :
    matchP1 (('I' :: 'M' :: 'G' :: '-' :: d8) ++ ('-' :: 'W' :: 'A' :: w :: ws)) =
      some { date := d8 } := by
  have h8 : takeDigits 8 (d8 ++ ('-' :: 'W' :: 'A' :: w :: ws)) =
      some (d8, '-' :: 'W' :: 'A' :: w :: ws) := by
    rw [← hlen]
    exact takeDigits_append d8 _ hd
  have hIMG : "IMG-".toList = ['I', 'M', 'G', '-'] := rfl
  simp [matchP1, hIMG, dropLit, h8, hw]

/-- Date normalisation leaves an all-digit date unchanged. -/
lemma normalizeDate_of_digits (d : List Char) (hd : ∀ c ∈ d, c.isDigit = true) :
    normalizeDate d = d := by
  unfold normalizeDate
  rw [if_neg]
  rintro (hmem | hmem)
  · exact absurd (hd '-' hmem) (by decide)
  · exact absurd (hd '_' hmem) (by decide)

/-- Post-processing a date-only match with eight digit characters returns the
date and no time. -/
lemma postProcess_p1_groups (d8 : List Char) (hlen : d8.length = 8)
    (hd : ∀ c ∈ d8, c.isDigit = true) :
    postProcess p1str { date := d8 } = some (d8, none) := by
  simp [postProcess, normalizeDate_of_digits d8 hd, hlen]

/-- Parsing a filename `IMG-<8 digits>-WA<digits>.jpg` yields the date and no
time. -/
lemma parse_img_wa (d8 : List Char) (w : Char) (ws : List Char)
    (hlen : d8.length = 8) (hd : ∀ c ∈ d8, c.isDigit = true)
    (hw : w.isDigit = true) :
    parse_datetime_from_filename
      (String.mk ((('I' :: 'M' :: 'G' :: '-' :: d8) ++ ('-' :: 'W' :: 'A' :: w :: ws)) ++
        ('.' :: 'j' :: 'p' :: 'g' :: []))) = (some d8, none) := by
  unfold parse_datetime_from_filename
  have htl : (String.mk ((('I' :: 'M' :: 'G' :: '-' :: d8) ++ ('-' :: 'W' :: 'A' :: w :: ws)) ++
      ('.' :: 'j' :: 'p' :: 'g' :: []))).toList =
      (('I' :: 'M' :: 'G' :: '-' :: d8) ++ ('-' :: 'W' :: 'A' :: w :: ws)) ++
      ('.' :: 'j' :: 'p' :: 'g' :: []) := rfl
  have hstem : stemOf ((('I' :: 'M' :: 'G' :: '-' :: d8) ++ ('-' :: 'W' :: 'A' :: w :: ws)) ++
      ('.' :: 'j' :: 'p' :: 'g' :: [])) =
      ('I' :: 'M' :: 'G' :: '-' :: d8) ++ ('-' :: 'W' :: 'A' :: w :: ws) :=
    stemOf_append_ext 'I' (('M' :: 'G' :: '-' :: d8) ++ ('-' :: 'W' :: 'A' :: w :: ws))
      ('j' :: 'p' :: 'g' :: []) (by decide) (by simp)
  rw [htl, hstem]
  simp only [FILENAME_PATTERNS, tryPatterns, matchP1_of_shape d8 w ws hlen hd hw,
    postProcess_p1_groups d8 hlen hd]

/-- Claim C9: a filename `IMG-<date>-WA<digits>.jpg` carrying a valid 8-digit
calendar date, resolved with filename resolution requested and the `zero`
time-default policy, yields the filename's date at 00:00:00 — for every
filesystem-modified datetime. -/
theorem C9_img_wa_resolution (d8 : List Char) (w : Char) (ws : List Char)
    (mtime : DateTime)
    (hlen : d8.length = 8) (hd : ∀ c ∈ d8, c.isDigit = true)
    (hw : w.isDigit = true)
    (h1 : 1 ≤ digitsToNat (d8.take 4)) (h2 : digitsToNat (d8.take 4) ≤ 9999)
    (h3 : 1 ≤ digitsToNat ((d8.drop 4).take 2))
    (h4 : digitsToNat ((d8.drop 4).take 2) ≤ 12)
    (h5 : 1 ≤ digitsToNat ((d8.drop 6).take 2))
    (h6 : digitsToNat ((d8.drop 6).take 2) ≤
      daysInMonth (digitsToNat (d8.take 4)) (digitsToNat ((d8.drop 4).take 2))) :
    whatsappResolve true
      (String.mk ((('I' :: 'M' :: 'G' :: '-' :: d8) ++ ('-' :: 'W' :: 'A' :: w :: ws)) ++
        ('.' :: 'j' :: 'p' :: 'g' :: []))) .zero mtime =
      .ok ⟨digitsToNat (d8.take 4), digitsToNat ((d8.drop 4).take 2),
        digitsToNat ((d8.drop 6).take 2), 0, 0, 0⟩ := by
  have hparse := parse_img_wa d8 w ws hlen hd hw
  have hcomp : compose_datetime d8 none .zero mtime =
      some ⟨digitsToNat (d8.take 4), digitsToNat ((d8.drop 4).take 2),
        digitsToNat ((d8.drop 6).take 2), 0, 0, 0⟩ := by
    unfold compose_datetime mkDatetime
    dsimp only
    rw [if_pos]
    exact ⟨h1, h2, h3, h4, h5, h6, by omega, by omega, by omega⟩
  simp only [whatsappResolve, hparse, hcomp]
  simp

/-- Claim C9, witness: `IMG-20210704-WA0001.jpg` with modified time
2022-03-01 resolves to `2021-07-04T00:00:00`. -/
theorem C9_witness :
    whatsappResolve true
      (String.mk ((('I' :: 'M' :: 'G' :: '-' :: "20210704".toList) ++
        ('-' :: 'W' :: 'A' :: '0' :: "001".toList)) ++ ('.' :: 'j' :: 'p' :: 'g' :: [])))
      .zero ⟨2022, 3, 1, 10, 0, 0⟩ = .ok ⟨2021, 7, 4, 0, 0, 0⟩ :=
  C9_img_wa_resolution "20210704".toList '0' "001".toList ⟨2022, 3, 1, 10, 0, 0⟩
    (by decide) (by decide) (by decide) (by decide) (by decide) (by decide) (by decide)
    (by decide) (by decide)

end PhotoConversion
